import Mathlib

/-!
Verification development for the NCCL diagnostic/logging subsystem
(src/src/debug.cc).  The C globals, the environment-driven initialization
(ncclDebugInit), the identity formatting (numDigits,
ncclDebugSetDistributorParams), the file-path template expansion
(lines 142-166) and the gating/emission entry point (ncclDebugLog) are
embedded as pure Lean functions.  C strings are lists of characters;
machine integers are Int/Nat; the thread-local override flag and the
values read from collaborators during one call (clock strings, the
WARN_ENABLE_DEBUG_INFO parameter) are explicit arguments.
-/

/-- Modelled from the spec: the verbosity enumeration is declared outside the
excerpt; the spec fixes the order NONE < VERSION < WARN < INFO < ABORT < TRACE,
here realized as 0..5 (any order-preserving values give the same comparisons). -/
def NCCL_LOG_NONE : Int := 0

/-- Modelled from the spec: second verbosity level. -/
def NCCL_LOG_VERSION : Int := 1

/-- Modelled from the spec: third verbosity level. -/
def NCCL_LOG_WARN : Int := 2

/-- Modelled from the spec: fourth verbosity level. -/
def NCCL_LOG_INFO : Int := 3

/-- Modelled from the spec: fifth verbosity level. -/
def NCCL_LOG_ABORT : Int := 4

/-- Modelled from the spec: sixth (highest) verbosity level. -/
def NCCL_LOG_TRACE : Int := 5

/-- All 64 bits set: the value of a ~0ULL subsystem mask. -/
def UINT64_MASK : Nat := 2 ^ 64 - 1

/-- Modelled from the spec: the subsystem constants are declared outside the
excerpt; the spec describes a bitset over the named subsystems, realized here
as distinct bits in declaration order. -/
def NCCL_INIT : Nat := 0x1

/-- Modelled from the spec: COLL subsystem bit. -/
def NCCL_COLL : Nat := 0x2

/-- Modelled from the spec: P2P subsystem bit. -/
def NCCL_P2P : Nat := 0x4

/-- Modelled from the spec: SHM subsystem bit. -/
def NCCL_SHM : Nat := 0x8

/-- Modelled from the spec: NET subsystem bit. -/
def NCCL_NET : Nat := 0x10

/-- Modelled from the spec: GRAPH subsystem bit. -/
def NCCL_GRAPH : Nat := 0x20

/-- Modelled from the spec: TUNING subsystem bit. -/
def NCCL_TUNING : Nat := 0x40

/-- Modelled from the spec: ENV subsystem bit. -/
def NCCL_ENV : Nat := 0x80

/-- Modelled from the spec: ALLOC subsystem bit. -/
def NCCL_ALLOC : Nat := 0x100

/-- Modelled from the spec: CALL subsystem bit. -/
def NCCL_CALL : Nat := 0x200

/-- Modelled from the spec: PROXY subsystem bit. -/
def NCCL_PROXY : Nat := 0x400

/-- Modelled from the spec: NVLS subsystem bit. -/
def NCCL_NVLS : Nat := 0x800

/-- Modelled from the spec: BOOTSTRAP subsystem bit. -/
def NCCL_BOOTSTRAP : Nat := 0x1000

/-- Modelled from the spec: REG subsystem bit. -/
def NCCL_REG : Nat := 0x2000

/-- Modelled from the spec: the ALL union, the full set; it matches the
~0ULL start value the source uses for inverted subsystem parsing. -/
def NCCL_ALL : Nat := UINT64_MASK

/-- The mutable globals of debug.cc relevant to the claims: ncclDebugLevel
(line 20, -1 is the uninitialized sentinel), ncclDebugMask (line 27) and
ncclLastError (line 26).  The sink handle, epoch and cached identity are
held by collaborators and are not part of the observable state here. -/
structure DebugState where
  ncclDebugLevel : Int
  ncclDebugMask : Nat
  ncclLastError : List Char
deriving DecidableEq, Repr

/-- Initial values of the globals (lines 20, 26, 27): sentinel level -1,
default mask INIT|ENV, empty last-error string. -/
def initialState : DebugState :=
  { ncclDebugLevel := -1
    ncclDebugMask := NCCL_INIT ||| NCCL_ENV
    ncclLastError := [] }

/-- The three configuration strings read once by ncclDebugInit:
NCCL_DEBUG, NCCL_DEBUG_SUBSYS, NCCL_DEBUG_FILE (none = unset). -/
structure EnvConfig where
  debug : Option (List Char)
  debugSubsys : Option (List Char)
  debugFile : Option (List Char)
deriving DecidableEq, Repr

/-- strcasecmp(a,b) == 0: case-insensitive equality of two C strings
(ASCII case folding). -/
def strcasecmpEq (a b : List Char) : Bool :=
  (a.map Char.toUpper) == (b.map Char.toUpper)

/-- Lines 65-78: map the NCCL_DEBUG value to a level.  tempNcclDebugLevel
starts at -1 and is only assigned when one of the five names matches
case-insensitively; an unmatched value leaves -1. -/
def levelNameValue (s : List Char) : Int :=
  if strcasecmpEq s ("VERSION".toList) then NCCL_LOG_VERSION
  else if strcasecmpEq s ("WARN".toList) then NCCL_LOG_WARN
  else if strcasecmpEq s ("INFO".toList) then NCCL_LOG_INFO
  else if strcasecmpEq s ("ABORT".toList) then NCCL_LOG_ABORT
  else if strcasecmpEq s ("TRACE".toList) then NCCL_LOG_TRACE
  else -1

/-- Lines 64-78: an absent NCCL_DEBUG gives NCCL_LOG_NONE; a present one is
matched by levelNameValue. -/
def tempDebugLevel (env : Option (List Char)) : Int :=
  match env with
  | none => NCCL_LOG_NONE
  | some s => levelNameValue s

/-- Accumulating splitter behind splitTokens. -/
def splitTokensAux : List Char → List Char → List (List Char)
  | acc, [] => [acc.reverse]
  | acc, c :: rest =>
    if c = ',' then acc.reverse :: splitTokensAux [] rest
    else splitTokensAux (c :: acc) rest

/-- strtok(s, ",") loop: comma-separated tokens; strtok never yields the
empty token (leading, trailing and doubled commas are skipped). -/
def splitTokens (s : List Char) : List (List Char) :=
  (splitTokensAux [] s).filter (fun t => !t.isEmpty)

/-- Lines 92-123: the mask value of one subsystem token; unknown tokens
give 0. -/
def subsysTokenMask (tok : List Char) : Nat :=
  if strcasecmpEq tok ("INIT".toList) then NCCL_INIT
  else if strcasecmpEq tok ("COLL".toList) then NCCL_COLL
  else if strcasecmpEq tok ("P2P".toList) then NCCL_P2P
  else if strcasecmpEq tok ("SHM".toList) then NCCL_SHM
  else if strcasecmpEq tok ("NET".toList) then NCCL_NET
  else if strcasecmpEq tok ("GRAPH".toList) then NCCL_GRAPH
  else if strcasecmpEq tok ("TUNING".toList) then NCCL_TUNING
  else if strcasecmpEq tok ("ENV".toList) then NCCL_ENV
  else if strcasecmpEq tok ("ALLOC".toList) then NCCL_ALLOC
  else if strcasecmpEq tok ("CALL".toList) then NCCL_CALL
  else if strcasecmpEq tok ("PROXY".toList) then NCCL_PROXY
  else if strcasecmpEq tok ("NVLS".toList) then NCCL_NVLS
  else if strcasecmpEq tok ("BOOTSTRAP".toList) then NCCL_BOOTSTRAP
  else if strcasecmpEq tok ("REG".toList) then NCCL_REG
  else if strcasecmpEq tok ("ALL".toList) then NCCL_ALL
  else 0

/-- Lines 84-130: parse NCCL_DEBUG_SUBSYS against the current mask cur.
Absent variable: the mask is left alone.  Present: a leading caret selects
inverted parsing, the working mask restarts at ~0ULL (inverted) or 0, and
each recognized token (mask nonzero) is removed from or added to it;
unknown tokens change nothing. -/
def parseSubsys (env : Option (List Char)) (cur : Nat) : Nat :=
  match env with
  | none => cur
  | some s0 =>
    let invert : Bool := match s0 with | '^' :: _ => true | _ => false
    let s1 := if invert then s0.tail else s0
    (splitTokens s1).foldl
      (fun acc tok =>
        let m := subsysTokenMask tok
        if m ≠ 0 then
          (if invert then acc &&& (UINT64_MASK ^^^ m) else acc ||| m)
        else acc)
      (if invert then UINT64_MASK else 0)

/-- Lines 61-181, ncclDebugInit restricted to the modelled globals: under the
lock, a state already initialized (level not -1) is returned unchanged;
otherwise the level is parsed from NCCL_DEBUG and the mask from
NCCL_DEBUG_SUBSYS, and tempNcclDebugLevel is stored into ncclDebugLevel -
including the -1 left by an unrecognized NCCL_DEBUG value.  Hostname/pid
caching, the epoch, tzset and the debug-file opening (see expandDebugFn
for lines 142-166) act on collaborators outside this state. -/
def ncclDebugInit (env : EnvConfig) (s : DebugState) : DebugState :=
  if s.ncclDebugLevel ≠ -1 then s
  else
    { s with
      ncclDebugLevel := tempDebugLevel env.debug
      ncclDebugMask := parseSubsys env.debugSubsys s.ncclDebugMask }

/-- Modelled from the spec: the fixed maximum path length (PATH_MAX) is
defined outside the excerpt; 4096 is the usual Linux value.  The claims
depend only on it being a fixed bound. -/
def PATH_MAX : Nat := 4096

/-- Lines 145-165: the template-expansion loop.  The list argument is the
unread remainder of the template (the C string ends at its terminator);
c is the source index checked against PATH_MAX.  The loop condition reads
env[c] first, so a terminator stops the loop at any c.  A percent consumes
the following character as specifier: percent, h (hostname via
snprintf(dfn, PATH_MAX, ...)), p (pid string, same bound) or literal
passthrough of both characters.  When the percent is the last character of
the template, the switch consumes the terminator and the next loop check
reads past the end of the string: that undefined read is returned as none.
The result is the sequence of bytes stored through dfn. -/
def expandLoop (host pidStr : List Char) : List Char → Nat → Option (List Char)
  | [], _ => some []
  | ch :: rest, c =>
    if c < PATH_MAX then
      if ch = '%' then
        match rest with
        | [] => none
        | x :: rest2 =>
          (expandLoop host pidStr rest2 (c + 2)).map (fun out =>
            (if x = '%' then ['%']
             else if x = 'h' then host.take (PATH_MAX - 1)
             else if x = 'p' then pidStr.take (PATH_MAX - 1)
             else ['%', x]) ++ out)
      else (expandLoop host pidStr rest (c + 1)).map (fun out => ch :: out)
    else some []

/-- Lines 142-166: expansion of the NCCL_DEBUG_FILE template starting at
index 0 in the empty debugFn buffer.  The hostname comes from the 1024-byte
hostname buffer (so in the source it is at most 1023 characters and the
per-expansion snprintf bound never truncates it). -/
def expandDebugFn (tmpl host pidStr : List Char) : Option (List Char) :=
  expandLoop host pidStr tmpl 0

/-- The expansion grammar in the words of the spec: percent-h the hostname,
percent-p the pid, a doubled percent one literal percent, any other
percent-X the two characters themselves, every other character copied
verbatim; a template ending in a lone percent is outside the grammar
(none). -/
def specExpandPath (host pidStr : List Char) : List Char → Option (List Char)
  | [] => some []
  | '%' :: rest =>
    match rest with
    | [] => none
    | x :: rest2 =>
      (specExpandPath host pidStr rest2).map (fun out =>
        (if x = '%' then ['%']
         else if x = 'h' then host
         else if x = 'p' then pidStr
         else ['%', x]) ++ out)
  | ch :: rest => (specExpandPath host pidStr rest).map (fun out => ch :: out)

/-- A template made of n copies of percent-h. -/
def hRepTemplate : Nat → List Char
  | 0 => []
  | n + 1 => '%' :: 'h' :: hRepTemplate n

/-- Lines 34-41 on the non-negative range: while (n > 0) { n /= 10; count++ }. -/
def numDigitsNat (n : Nat) : Nat :=
  if h : 0 < n then numDigitsNat (n / 10) + 1 else 0
termination_by n
decreasing_by exact Nat.div_lt_self h (by norm_num)

/-- Lines 34-41: numDigits on int; the loop body never runs for n <= 0
(the source notes this returns 0 for negative numbers). -/
def numDigits (n : Int) : Nat :=
  numDigitsNat n.toNat

/-- ostringstream with setfill zero and setw w: left-pad the decimal string
to width w (never truncates a longer string). -/
def zeroPad (w : Nat) (s : List Char) : List Char :=
  List.replicate (w - s.length) '0' ++ s

/-- Lines 43-59: under the lock, compute the digit count of nranks and store
both rank and nranks as zero-padded decimal strings of that width.  The
result is the pair (rank, nranks) of stored strings. -/
def ncclDebugSetDistributorParams (r n : Int) : List Char × List Char :=
  let ndigits := numDigits n
  (zeroPad ndigits ((toString r).toList), zeroPad ndigits ((toString n).toList))

/-- Ambient values one ncclDebugLog call reads besides the globals: the
identity strings (rank, nranks, hostname, pid), the wall-clock string of
get_local_now(), the formatted monotonic timestamp of the TRACE branch,
and the WARN_ENABLE_DEBUG_INFO parameter. -/
structure LogCtx where
  rank : List Char
  nranks : List Char
  hostname : List Char
  pid : Nat
  localNow : List Char
  traceTimestamp : List Char
  warnSetDebugInfo : Bool
deriving DecidableEq, Repr

/-- Lines 229-233: the WARN line header. -/
def warnHeader (ctx : LogCtx) (filefunc : List Char) (line : Int) : List Char :=
  ("[".toList) ++ ctx.rank ++ ("/".toList) ++ ctx.nranks
    ++ ("][".toList) ++ ctx.localNow
    ++ ("] [".toList) ++ filefunc ++ (":".toList) ++ ((toString line).toList)
    ++ ("] [".toList) ++ ctx.hostname ++ (":pid=".toList) ++ ((toString ctx.pid).toList)
    ++ ("] NCCL WARN ".toList)

/-- Lines 236-240: the INFO line header (same shape, INFO label). -/
def infoHeader (ctx : LogCtx) (filefunc : List Char) (line : Int) : List Char :=
  ("[".toList) ++ ctx.rank ++ ("/".toList) ++ ctx.nranks
    ++ ("][".toList) ++ ctx.localNow
    ++ ("] [".toList) ++ filefunc ++ (":".toList) ++ ((toString line).toList)
    ++ ("] [".toList) ++ ctx.hostname ++ (":pid=".toList) ++ ((toString ctx.pid).toList)
    ++ ("] NCCL INFO ".toList)

/-- Line 242: the TRACE header when the flags are exactly NCCL_CALL. -/
def callHeader (ctx : LogCtx) : List Char :=
  ("[".toList) ++ ctx.hostname ++ (":pid=".toList) ++ ((toString ctx.pid).toList)
    ++ ("] NCCL CALL ".toList)

/-- Lines 244-247: the general TRACE header with the elapsed timestamp. -/
def traceHeader (ctx : LogCtx) (filefunc : List Char) (line : Int) : List Char :=
  ("[".toList) ++ ctx.hostname ++ (":pid=".toList) ++ ((toString ctx.pid).toList)
    ++ ("] ".toList) ++ ctx.traceTimestamp ++ (" ".toList)
    ++ filefunc ++ (":".toList) ++ ((toString line).toList)
    ++ (" NCCL TRACE ".toList)

/-- The terminating NUL byte. -/
def nulChar : Char := Char.ofNat 0

/-- Line 226: sizeof(buffer). -/
def bufSize : Nat := 2048

/-- Line 26: sizeof(ncclLastError). -/
def lastErrorCap : Nat := 1024

/-- Line 257: if (len > sizeof(buffer)) len = sizeof(buffer)-1.  The clamped
value is the index that receives the trailing newline at line 258. -/
def clampLen (len : Nat) : Nat :=
  if len > bufSize then bufSize - 1 else len

/-- Lines 250-259 at the byte level, for a header whose reported length is
its actual length (header shorter than the buffer): vsnprintf stores at most
bufSize-1 content bytes and a NUL, and reports the untruncated total len.
When len is at most bufSize-1 the newline replaces the NUL; when len exceeds
bufSize the clamp rewinds to bufSize-1 and the newline replaces the last
stored byte slot; when len equals bufSize exactly the clamp does not fire
and the newline lands one slot past the stored NUL, so the written bytes
keep that NUL and run to bufSize+1. -/
def fwriteBytes (header msg : List Char) : List Char :=
  let len := header.length + msg.length
  let content := (header ++ msg).take (bufSize - 1)
  if len = bufSize then content ++ [nulChar, '\n'] else content ++ ['\n']

/-- Line 208: the thread-local override; a nonzero ncclDebugNoWarn rewrites
a WARN record to INFO and replaces its flags with the override value. -/
def applyNoWarn (noWarn : Nat) (level : Int) (flags : Nat) : Int × Nat :=
  if noWarn ≠ 0 ∧ level = NCCL_LOG_WARN then (NCCL_LOG_INFO, noWarn)
  else (level, flags)

/-- Lines 208-260: the body of ncclDebugLog after the lazy-init check.
Step order as in the source: override, unconditional last-error update for
WARN records (vsnprintf into the 1024-byte buffer, under the lock), the
eligibility filter reading the level and mask globals, header selection by
level (no branch: header empty), the WARN-triggered one-shot escalation of
the level global, and the single write (skipped when the header length is
zero).  The second component is the bytes handed to fwrite, none when
nothing is written. -/
def ncclDebugLogBody (ctx : LogCtx) (noWarn : Nat) (s : DebugState)
    (level : Int) (flags : Nat) (filefunc : List Char) (line : Int)
    (msg : List Char) : DebugState × Option (List Char) :=
  let lf := applyNoWarn noWarn level flags
  let s1 :=
    if lf.1 = NCCL_LOG_WARN then
      { s with ncclLastError := msg.take (lastErrorCap - 1) }
    else s
  if s.ncclDebugLevel < lf.1 ∨ lf.2 &&& s.ncclDebugMask = 0 then (s1, none)
  else
    let header : List Char :=
      if lf.1 = NCCL_LOG_WARN then warnHeader ctx filefunc line
      else if lf.1 = NCCL_LOG_INFO then infoHeader ctx filefunc line
      else if lf.1 = NCCL_LOG_TRACE ∧ lf.2 = NCCL_CALL then callHeader ctx
      else if lf.1 = NCCL_LOG_TRACE then traceHeader ctx filefunc line
      else []
    let s2 :=
      if lf.1 = NCCL_LOG_WARN ∧ ctx.warnSetDebugInfo then
        { s1 with ncclDebugLevel := NCCL_LOG_INFO }
      else s1
    if header = [] then (s2, none) else (s2, some (fwriteBytes header msg))

/-- Lines 206-260: ncclDebugLog.  Line 207 runs the lazy initialization when
the level global still holds the sentinel; the rest is ncclDebugLogBody.
The formatted variadic message is the msg argument. -/
def ncclDebugLog (env : EnvConfig) (ctx : LogCtx) (noWarn : Nat)
    (s : DebugState) (level : Int) (flags : Nat) (filefunc : List Char)
    (line : Int) (msg : List Char) : DebugState × Option (List Char) :=
  let s0 := if s.ncclDebugLevel = -1 then ncclDebugInit env s else s
  ncclDebugLogBody ctx noWarn s0 level flags filefunc line msg

/-- An environment with all three variables unset. -/
def env0 : EnvConfig :=
  { debug := none, debugSubsys := none, debugFile := none }

/-- An environment whose NCCL_DEBUG value matches no level name. -/
def envBogus : EnvConfig :=
  { debug := some ("BOGUS".toList), debugSubsys := none, debugFile := none }

/-- A concrete call context for witnesses and counterexamples. -/
def ctx0 : LogCtx :=
  { rank := ['0'], nranks := ['1'], hostname := ['h'], pid := 7
    localNow := ['n'], traceTimestamp := ['t'], warnSetDebugInfo := false }

/-- An initialized state at configured level INFO with the default mask. -/
def sInfoState : DebugState :=
  { ncclDebugLevel := NCCL_LOG_INFO
    ncclDebugMask := NCCL_INIT ||| NCCL_ENV
    ncclLastError := [] }

/-- An initialized state at configured level TRACE with the INIT bit. -/
def sTraceState : DebugState :=
  { ncclDebugLevel := NCCL_LOG_TRACE
    ncclDebugMask := NCCL_INIT
    ncclLastError := [] }

/-- An initialized state whose last-error already holds an older text. -/
def sOldErrState : DebugState :=
  { ncclDebugLevel := NCCL_LOG_INFO
    ncclDebugMask := NCCL_INIT
    ncclLastError := "old".toList }

/-- C2 counterexample: with NCCL_DEBUG set to BOGUS (matching no level name),
initialization stores the sentinel -1 back into the level global, not
NCCL_LOG_NONE, so the state does not become initialized. -/
theorem ncclDebugInit_unrecognized_level_counterexample :
    (ncclDebugInit envBogus initialState).ncclDebugLevel = -1
    ∧ (ncclDebugInit envBogus initialState).ncclDebugLevel ≠ NCCL_LOG_NONE := by
  constructor <;> decide

/-- C2 amended: if NCCL_DEBUG is absent the configured level becomes NONE and
the sentinel is replaced (the state becomes initialized); if NCCL_DEBUG is
present but matches none of VERSION, WARN, INFO, ABORT, TRACE
case-insensitively, the stored level is the sentinel -1 itself, so logging is
disabled but the state does not become initialized. -/
theorem ncclDebugInit_level_parsing (env : EnvConfig) (s : DebugState)
    (hs : s.ncclDebugLevel = -1) :
    (env.debug = none →
      (ncclDebugInit env s).ncclDebugLevel = NCCL_LOG_NONE
      ∧ (ncclDebugInit env s).ncclDebugLevel ≠ -1)
    ∧ (∀ name, env.debug = some name →
        strcasecmpEq name ("VERSION".toList) = false →
        strcasecmpEq name ("WARN".toList) = false →
        strcasecmpEq name ("INFO".toList) = false →
        strcasecmpEq name ("ABORT".toList) = false →
        strcasecmpEq name ("TRACE".toList) = false →
        (ncclDebugInit env s).ncclDebugLevel = -1) := by
  have hcond : ¬ s.ncclDebugLevel ≠ -1 := by simp [hs]
  constructor
  · intro hd
    unfold ncclDebugInit
    rw [if_neg hcond]
    refine ⟨by simp [tempDebugLevel, hd], by simp [tempDebugLevel, hd, NCCL_LOG_NONE]⟩
  · intro name hd h1 h2 h3 h4 h5
    unfold ncclDebugInit
    rw [if_neg hcond]
    simp at h1 h2 h3 h4 h5
    simp [tempDebugLevel, hd, levelNameValue, h1, h2, h3, h4, h5]

/-- C2 witness: with NCCL_DEBUG absent, a sentinel state initializes to
level NONE. -/
theorem ncclDebugInit_level_parsing_witness :
    (ncclDebugInit env0 initialState).ncclDebugLevel = NCCL_LOG_NONE :=
  ((ncclDebugInit_level_parsing env0 initialState rfl).1 rfl).1

/-- C6: subsystem-list parsing has the reference semantics: comma-separated
case-insensitive tokens, INIT,COLL gives the union of the two bits, a
leading caret inverts parsing so caret-INIT gives ALL minus INIT, the
unknown token BOGUS is silently ignored, and a present list fully replaces
whatever mask was current before (the result does not depend on cur). -/
theorem parseSubsys_reference_semantics :
    ∀ cur : Nat,
      parseSubsys (some ("INIT,COLL".toList)) cur = NCCL_INIT ||| NCCL_COLL
      ∧ parseSubsys (some ("init,coll".toList)) cur = NCCL_INIT ||| NCCL_COLL
      ∧ parseSubsys (some ("^INIT".toList)) cur = NCCL_ALL ^^^ NCCL_INIT
      ∧ parseSubsys (some ("BOGUS".toList)) cur = 0
      ∧ parseSubsys (some ("INIT,BOGUS,COLL".toList)) cur = NCCL_INIT ||| NCCL_COLL :=
  fun _ => ⟨rfl, rfl, rfl, rfl, rfl⟩

/-- C9: digit counting and identity formatting: the digit count is 0 for
every non-positive argument, 1 for 5 and 3 for 128; configuring rank 8 among
128 peers stores the zero-padded strings 008 and 128. -/
theorem numDigits_and_distributor_params :
    (∀ n : Int, n ≤ 0 → numDigits n = 0)
    ∧ numDigits 5 = 1
    ∧ numDigits 128 = 3
    ∧ ncclDebugSetDistributorParams 8 128 = ("008".toList, "128".toList) := by
  have h128 : numDigits 128 = 3 := by
    show numDigitsNat 128 = 3
    rw [numDigitsNat, numDigitsNat, numDigitsNat, numDigitsNat]
    norm_num
  refine ⟨?_, ?_, h128, ?_⟩
  · intro n hn
    unfold numDigits
    rw [Int.toNat_of_nonpos hn]
    rw [numDigitsNat]
    norm_num
  · show numDigitsNat 5 = 1
    rw [numDigitsNat, numDigitsNat]
    norm_num
  · unfold ncclDebugSetDistributorParams
    rw [h128]
    rfl

/-- C9 witness: the non-positive clause of the digit-count theorem at -3. -/
theorem numDigits_and_distributor_params_witness : numDigits (-3) = 0 :=
  numDigits_and_distributor_params.1 (-3) (by norm_num)

/-- C3: off-by-one in the truncation guard of message assembly.  When the
formatter reports a total length of exactly 2048 (the buffer size), the
clamp at line 257 does not fire (it only fires for lengths strictly greater),
so the trailing newline is written at buffer[2048] - one slot past the
2048-byte buffer - and 2049 bytes are handed to fwrite. -/
theorem ncclDebugLog_truncation_off_by_one :
    clampLen (48 + 2000) = bufSize
    ∧ (fwriteBytes (List.replicate 48 'a') (List.replicate 2000 'b')).length
        = bufSize + 1 := by
  constructor
  · decide
  · unfold fwriteBytes
    simp only [List.length_replicate, List.length_append, List.length_take]
    norm_num [bufSize]

/-- Helper: the WARN line header is never empty (snprintf of its format
returns a positive length). -/
theorem warnHeader_ne_nil (ctx : LogCtx) (ff : List Char) (ln : Int) :
    warnHeader ctx ff ln ≠ [] := by
  simp [warnHeader]

/-- Helper: on an already-initialized state the lazy-init check of line 207
is a no-op and ncclDebugLog is its body. -/
theorem ncclDebugLog_eq_body (env : EnvConfig) (ctx : LogCtx) (noWarn : Nat)
    (s : DebugState) (level : Int) (flags : Nat) (ff : List Char) (ln : Int)
    (msg : List Char) (hinit : s.ncclDebugLevel ≠ -1) :
    ncclDebugLog env ctx noWarn s level flags ff ln msg
      = ncclDebugLogBody ctx noWarn s level flags ff ln msg := by
  unfold ncclDebugLog
  rw [if_neg hinit]

/-- Helper: with the override flag clear, a WARN call stores the truncated
message in the last-error buffer regardless of the filter outcome. -/
theorem logBody_warn_sets_lastError (ctx : LogCtx) (s : DebugState)
    (flags : Nat) (ff : List Char) (ln : Int) (msg : List Char) :
    (ncclDebugLogBody ctx 0 s NCCL_LOG_WARN flags ff ln msg).1.ncclLastError
      = msg.take (lastErrorCap - 1) := by
  unfold ncclDebugLogBody
  have ha : applyNoWarn 0 NCCL_LOG_WARN flags = (NCCL_LOG_WARN, flags) := by
    simp [applyNoWarn]
  rw [ha]
  dsimp only
  simp only [NCCL_LOG_WARN, NCCL_LOG_INFO, NCCL_LOG_TRACE]
  norm_num
  split_ifs <;> simp

/-- Helper: with the override flag set, a WARN call is downgraded before the
last-error step, so the last-error buffer is untouched. -/
theorem logBody_noWarn_keeps_lastError (ctx : LogCtx) (noWarn : Nat)
    (s : DebugState) (flags : Nat) (ff : List Char) (ln : Int)
    (msg : List Char) (h : noWarn ≠ 0) :
    (ncclDebugLogBody ctx noWarn s NCCL_LOG_WARN flags ff ln msg).1.ncclLastError
      = s.ncclLastError := by
  unfold ncclDebugLogBody
  have ha : applyNoWarn noWarn NCCL_LOG_WARN flags = (NCCL_LOG_INFO, noWarn) := by
    simp [applyNoWarn, h]
  rw [ha]
  dsimp only
  simp only [NCCL_LOG_WARN, NCCL_LOG_INFO, NCCL_LOG_TRACE]
  norm_num
  split_ifs <;> simp

/-- C1: after initialization the eligibility filter governs emission: the
record (after the per-thread override rewrite of level and flags) is dropped
whenever the configured level is below its level or its flags miss the
configured mask; and with configured level INFO and a flag inside the mask,
a WARN record is emitted while a TRACE record is dropped. -/
theorem ncclDebugLog_eligibility_filter (env : EnvConfig) (ctx : LogCtx)
    (noWarn : Nat) (s : DebugState) (level : Int) (flags : Nat)
    (ff : List Char) (ln : Int) (msg : List Char)
    (hinit : s.ncclDebugLevel ≠ -1) :
    ((s.ncclDebugLevel < (applyNoWarn noWarn level flags).1
        ∨ (applyNoWarn noWarn level flags).2 &&& s.ncclDebugMask = 0) →
      (ncclDebugLog env ctx noWarn s level flags ff ln msg).2 = none)
    ∧ (s.ncclDebugLevel = NCCL_LOG_INFO → noWarn = 0 →
        flags &&& s.ncclDebugMask ≠ 0 →
        ((level = NCCL_LOG_WARN →
          (ncclDebugLog env ctx noWarn s level flags ff ln msg).2 ≠ none)
        ∧ (level = NCCL_LOG_TRACE →
          (ncclDebugLog env ctx noWarn s level flags ff ln msg).2 = none))) := by
  rw [ncclDebugLog_eq_body env ctx noWarn s level flags ff ln msg hinit]
  constructor
  · intro h
    unfold ncclDebugLogBody
    dsimp only
    rw [if_pos h]
  · intro hlvl hnw hm
    subst hnw
    constructor
    · intro hW
      subst hW
      unfold ncclDebugLogBody
      have ha : applyNoWarn 0 NCCL_LOG_WARN flags = (NCCL_LOG_WARN, flags) := by
        simp [applyNoWarn]
      rw [ha]
      dsimp only
      rw [hlvl]
      have hfilter : ¬ (NCCL_LOG_INFO < NCCL_LOG_WARN ∨ flags &&& s.ncclDebugMask = 0) := by
        push_neg
        exact ⟨by norm_num [NCCL_LOG_INFO, NCCL_LOG_WARN], hm⟩
      rw [if_neg hfilter, if_pos rfl, if_neg (warnHeader_ne_nil ctx ff ln)]
      simp
    · intro hT
      subst hT
      unfold ncclDebugLogBody
      have ha : applyNoWarn 0 NCCL_LOG_TRACE flags = (NCCL_LOG_TRACE, flags) := by
        simp [applyNoWarn, NCCL_LOG_TRACE, NCCL_LOG_WARN]
      rw [ha]
      dsimp only
      rw [hlvl]
      have hfilter : NCCL_LOG_INFO < NCCL_LOG_TRACE ∨ flags &&& s.ncclDebugMask = 0 := by
        left
        norm_num [NCCL_LOG_INFO, NCCL_LOG_TRACE]
      rw [if_pos hfilter]

/-- C1 witness: at configured level INFO with the INIT flag in the default
mask, a WARN record is written. -/
theorem ncclDebugLog_eligibility_filter_witness :
    (ncclDebugLog env0 ctx0 0 sInfoState NCCL_LOG_WARN NCCL_INIT ['f'] 1 ['m']).2 ≠ none :=
  ((ncclDebugLog_eligibility_filter env0 ctx0 0 sInfoState NCCL_LOG_WARN
      NCCL_INIT ['f'] 1 ['m'] (by decide)).2 rfl rfl (by decide)).1 rfl

/-- C4: a call whose level is still WARN after the override step (override
flag clear on the calling thread) overwrites the last-error text with the
call's formatted message before the eligibility filter runs; in particular
a WARN call whose flags miss the configured mask still updates last-error
while writing nothing to the sink. -/
theorem ncclDebugLog_warn_updates_lastError (env : EnvConfig) (ctx : LogCtx)
    (noWarn : Nat) (s : DebugState) (level : Int) (flags : Nat)
    (ff : List Char) (ln : Int) (msg : List Char)
    (hinit : s.ncclDebugLevel ≠ -1) (hnw : noWarn = 0)
    (hl : level = NCCL_LOG_WARN) :
    ((ncclDebugLog env ctx noWarn s level flags ff ln msg).1.ncclLastError
      = msg.take (lastErrorCap - 1))
    ∧ (flags &&& s.ncclDebugMask = 0 →
      (ncclDebugLog env ctx noWarn s level flags ff ln msg).2 = none) := by
  subst hnw
  subst hl
  rw [ncclDebugLog_eq_body env ctx 0 s NCCL_LOG_WARN flags ff ln msg hinit]
  constructor
  · exact logBody_warn_sets_lastError ctx s flags ff ln msg
  · intro hmask
    unfold ncclDebugLogBody
    have ha : applyNoWarn 0 NCCL_LOG_WARN flags = (NCCL_LOG_WARN, flags) := by
      simp [applyNoWarn]
    rw [ha]
    dsimp only
    rw [if_pos (Or.inr hmask)]

/-- C4 witness: a WARN call with the P2P flag outside the default mask still
replaces the last-error text while nothing reaches the sink. -/
theorem ncclDebugLog_warn_updates_lastError_witness :
    (ncclDebugLog env0 ctx0 0 sInfoState NCCL_LOG_WARN NCCL_P2P ['f'] 1 ['m']).1.ncclLastError
      = (['m'] : List Char).take (lastErrorCap - 1)
    ∧ (ncclDebugLog env0 ctx0 0 sInfoState NCCL_LOG_WARN NCCL_P2P ['f'] 1 ['m']).2 = none :=
  have h := ncclDebugLog_warn_updates_lastError env0 ctx0 0 sInfoState
    NCCL_LOG_WARN NCCL_P2P ['f'] 1 ['m'] (by decide) rfl rfl
  ⟨h.1, h.2 (by decide)⟩

/-- C5 counterexample: on a thread whose override flag is set (noWarn holds
the INIT flag), a WARN-level call is downgraded before the last-error step,
so last-error keeps its old text instead of that call's message - refuting
the claim that last-error always reflects the most recent WARN call on any
thread. -/
theorem ncclDebugLog_lastError_override_counterexample :
    (ncclDebugLog env0 ctx0 NCCL_INIT sOldErrState NCCL_LOG_WARN NCCL_INIT
      ['f'] 1 ("boom".toList)).1.ncclLastError
        ≠ ("boom".toList).take (lastErrorCap - 1)
    ∧ (ncclDebugLog env0 ctx0 NCCL_INIT sOldErrState NCCL_LOG_WARN NCCL_INIT
      ['f'] 1 ("boom".toList)).1.ncclLastError = "old".toList := by
  constructor <;> decide

/-- C5 amended: last-error reflects the most recently attempted WARN call
only on threads whose override flag is clear; with the flag set the call is
rewritten to INFO before the last-error step and the text is unchanged. -/
theorem ncclDebugLog_lastError_update (env : EnvConfig) (ctx : LogCtx)
    (noWarn : Nat) (s : DebugState) (level : Int) (flags : Nat)
    (ff : List Char) (ln : Int) (msg : List Char)
    (hinit : s.ncclDebugLevel ≠ -1) (hl : level = NCCL_LOG_WARN) :
    (noWarn = 0 →
      (ncclDebugLog env ctx noWarn s level flags ff ln msg).1.ncclLastError
        = msg.take (lastErrorCap - 1))
    ∧ (noWarn ≠ 0 →
      (ncclDebugLog env ctx noWarn s level flags ff ln msg).1.ncclLastError
        = s.ncclLastError) := by
  subst hl
  rw [ncclDebugLog_eq_body env ctx noWarn s NCCL_LOG_WARN flags ff ln msg hinit]
  constructor
  · intro h0
    subst h0
    exact logBody_warn_sets_lastError ctx s flags ff ln msg
  · intro h
    exact logBody_noWarn_keeps_lastError ctx noWarn s flags ff ln msg h

/-- C5 amended witness: with the override flag set the old last-error text
survives a WARN call. -/
theorem ncclDebugLog_lastError_update_witness :
    (ncclDebugLog env0 ctx0 NCCL_INIT sOldErrState NCCL_LOG_WARN NCCL_INIT
      ['f'] 1 ['m']).1.ncclLastError = sOldErrState.ncclLastError :=
  (ncclDebugLog_lastError_update env0 ctx0 NCCL_INIT sOldErrState
    NCCL_LOG_WARN NCCL_INIT ['f'] 1 ['m'] (by decide) rfl).2 (by decide)

/-- C10: a call whose post-override level is NONE, VERSION or ABORT (the
override can only produce INFO, so these equal the input level) writes
nothing to the sink even when it passes the eligibility filter: no header
branch matches, the assembled length stays zero and the write is skipped. -/
theorem ncclDebugLog_silent_levels (env : EnvConfig) (ctx : LogCtx)
    (noWarn : Nat) (s : DebugState) (level : Int) (flags : Nat)
    (ff : List Char) (ln : Int) (msg : List Char)
    (hinit : s.ncclDebugLevel ≠ -1)
    (hlev : level = NCCL_LOG_NONE ∨ level = NCCL_LOG_VERSION
      ∨ level = NCCL_LOG_ABORT) :
    (ncclDebugLog env ctx noWarn s level flags ff ln msg).2 = none := by
  rw [ncclDebugLog_eq_body env ctx noWarn s level flags ff ln msg hinit]
  unfold ncclDebugLogBody
  have ha : applyNoWarn noWarn level flags = (level, flags) := by
    rcases hlev with h | h | h <;> subst h <;>
      simp [applyNoWarn, NCCL_LOG_NONE, NCCL_LOG_VERSION, NCCL_LOG_ABORT,
        NCCL_LOG_WARN]
  rw [ha]
  dsimp only
  rcases hlev with h | h | h <;> subst h <;>
    simp only [NCCL_LOG_NONE, NCCL_LOG_VERSION, NCCL_LOG_ABORT, NCCL_LOG_WARN,
      NCCL_LOG_INFO, NCCL_LOG_TRACE] <;>
    norm_num

/-- C10 witness: an ABORT record that passes the filter (configured TRACE,
INIT flag in the mask) still produces no output. -/
theorem ncclDebugLog_silent_levels_witness :
    (ncclDebugLog env0 ctx0 0 sTraceState NCCL_LOG_ABORT NCCL_INIT ['f'] 1 ['m']).2 = none :=
  ncclDebugLog_silent_levels env0 ctx0 0 sTraceState NCCL_LOG_ABORT NCCL_INIT
    ['f'] 1 ['m'] (by decide) (Or.inr (Or.inr rfl))

/-- Helper: within the PATH_MAX input bound, and with hostname and pid
strings short enough that the per-expansion snprintf bound is loose (always
true in the source, where the hostname buffer is 1024 bytes), the expansion
loop computes exactly the grammar of the spec. -/
theorem expandLoop_eq_specExpandPath (host pidStr : List Char)
    (hh : host.length ≤ PATH_MAX - 1) (hp : pidStr.length ≤ PATH_MAX - 1) :
    ∀ (fuel : Nat) (tmpl : List Char), tmpl.length ≤ fuel →
      ∀ c : Nat, c + tmpl.length ≤ PATH_MAX →
      expandLoop host pidStr tmpl c = specExpandPath host pidStr tmpl := by
  intro fuel
  induction fuel with
  | zero =>
    intro tmpl hlen c hc
    have h0 : tmpl = [] := List.length_eq_zero.mp (Nat.le_zero.mp hlen)
    subst h0
    rfl
  | succ n ih =>
    intro tmpl hlen c hc
    cases tmpl with
    | nil => rfl
    | cons ch rest =>
      have hclt : c < PATH_MAX := by
        simp only [List.length_cons] at hc
        omega
      by_cases hch : ch = '%'
      · subst hch
        cases rest with
        | nil => simp [expandLoop, specExpandPath, hclt]
        | cons x rest2 =>
          have h2 : rest2.length ≤ n := by
            simp only [List.length_cons] at hlen
            omega
          have hc2 : c + 2 + rest2.length ≤ PATH_MAX := by
            simp only [List.length_cons] at hc
            omega
          have hrec := ih rest2 h2 (c + 2) hc2
          simp [expandLoop, specExpandPath, hclt, hrec,
            List.take_of_length_le hh, List.take_of_length_le hp]
      · have h1 : rest.length ≤ n := by
          simp only [List.length_cons] at hlen
          omega
        have hc1 : c + 1 + rest.length ≤ PATH_MAX := by
          simp only [List.length_cons] at hc
          omega
        have hrec := ih rest h1 (c + 1) hc1
        cases rest with
        | nil => simp [expandLoop, specExpandPath, hclt, hch]
        | cons x rest2 => simp [expandLoop, specExpandPath, hclt, hch, hrec]

/-- C7: file-path template expansion follows the grammar (hostname for
percent-h, pid for percent-p, one percent for a doubled percent, literal
passthrough for any other specifier, verbatim copy otherwise) whenever the
template fits the PATH_MAX input bound; and the three reference examples
hold with hostname h1 and pid 42. -/
theorem expandDebugFn_grammar :
    (∀ tmpl host pidStr : List Char, tmpl.length ≤ PATH_MAX →
      host.length ≤ PATH_MAX - 1 → pidStr.length ≤ PATH_MAX - 1 →
      expandDebugFn tmpl host pidStr = specExpandPath host pidStr tmpl)
    ∧ expandDebugFn ("log.%h.%p".toList) ("h1".toList) ((toString 42).toList)
        = some ("log.h1.42".toList)
    ∧ expandDebugFn ("100%%done".toList) ("h1".toList) ((toString 42).toList)
        = some ("100%done".toList)
    ∧ expandDebugFn ("%q".toList) ("h1".toList) ((toString 42).toList)
        = some ("%q".toList) := by
  refine ⟨?_, by decide, by decide, by decide⟩
  intro tmpl host pidStr hlen hh hp
  exact expandLoop_eq_specExpandPath host pidStr hh hp tmpl.length tmpl
    le_rfl 0 (by simpa using hlen)

/-- C7 witness: the grammar clause applied to a small concrete template. -/
theorem expandDebugFn_grammar_witness :
    expandDebugFn ("a%q".toList) ("h1".toList) ("42".toList)
      = specExpandPath ("h1".toList) ("42".toList) ("a%q".toList) :=
  expandDebugFn_grammar.1 ("a%q".toList) ("h1".toList) ("42".toList)
    (by decide) (by decide) (by decide)

/-- Helper: expanding a template of n percent-h groups appends n copies of
the (snprintf-bounded) hostname, as long as the 2n input characters stay
under PATH_MAX. -/
theorem expandLoop_hRepTemplate (host pidStr : List Char) :
    ∀ (n c : Nat), c + 2 * n ≤ PATH_MAX →
      ∃ out, expandLoop host pidStr (hRepTemplate n) c = some out
        ∧ out.length = n * (host.take (PATH_MAX - 1)).length := by
  intro n
  induction n with
  | zero =>
    intro c hc
    exact ⟨[], rfl, by simp⟩
  | succ k ih =>
    intro c hc
    have hclt : c < PATH_MAX := by omega
    obtain ⟨out, heq, hlen⟩ := ih (c + 2) (by omega)
    refine ⟨host.take (PATH_MAX - 1) ++ out, ?_, ?_⟩
    · simp [hRepTemplate, expandLoop, hclt, heq]
    · simp only [List.length_append, hlen]
      ring

/-- C8: template expansion is not bounded by the output buffer: the
c < PATH_MAX check bounds only how much input is consumed, while each
percent-h writes the hostname and advances the output cursor, so 41
percent-h groups (82 input characters) with a 100-character hostname store
4101 bytes (including the final NUL) into the PATH_MAX+1 = 4097 byte
debugFn buffer, writing past its end instead of truncating.  (A template
ending in a lone percent additionally makes the loop read past the
template's terminator.) -/
theorem expandDebugFn_overflow :
    ∃ out, expandDebugFn (hRepTemplate 41) (List.replicate 100 'a')
        ((toString 42).toList) = some out
      ∧ PATH_MAX + 1 < out.length + 1 := by
  obtain ⟨out, heq, hlen⟩ := expandLoop_hRepTemplate (List.replicate 100 'a')
    ((toString 42).toList) 41 0 (by norm_num [PATH_MAX])
  refine ⟨out, heq, ?_⟩
  rw [hlen]
  norm_num [PATH_MAX]
